import Mathlib

/-
Verification development for the YT_Examples evaluation pipeline
(evals_and_disillation: step2_get_output.ts, step3_analyze_results.ts,
run_evaluation.ts).

The TypeScript sources are shallowly embedded below:
pure functions become Lean functions, the remote OpenAI call is an
oracle parameter (the remote API is consumed as a black box), file and
stream reading is modelled by passing the parsed rows as a list, and
thrown JS errors become Except / tagged error values.
-/

/-
Dynamically typed cell values produced by the papaparse CSV parser with
dynamicTyping enabled (and by CLI argument handling): strings, numbers,
booleans, null, undefined and Date objects.  Numbers are modelled as
rationals; a Date carries its ISO representation.
-/
inductive JSValue where
  | str : String → JSValue
  | num : Rat → JSValue
  | bool : Bool → JSValue
  | null : JSValue
  | undefined : JSValue
  | date : String → JSValue
deriving DecidableEq, Repr

/- typeof v === "string" -/
def JSValue.isString : JSValue → Bool
  | .str _ => true
  | _ => false

/- typeof v === "number" -/
def JSValue.isNumber : JSValue → Bool
  | .num _ => true
  | _ => false

/-
The JS String(v) coercion, as applied by the row mapping in
readPredictionsFile.  The exact decimal rendering of numbers is
abstracted by toString on rationals; no claim depends on it.
-/
def jsToString : JSValue → String
  | .str s => s
  | .num q => toString q
  | .bool b => if b then "true" else "false"
  | .null => "null"
  | .undefined => "undefined"
  | .date iso => iso

/-
step3_analyze_results.ts, interface WinePredictionRecord / the record
built by the row mapping in readPredictionsFile.  recordId and model are
taken raw from the parsed row (so they stay dynamic); the other fields
go through String(...) in the mapping, hence are strings.
-/
structure WinePredictionRecord where
  recordId : JSValue
  model : JSValue
  prediction : String
  timestamp : String
  winery : String
  variety : String
  actual_variety : String
deriving DecidableEq, Repr

/- One entry of WineAnalysisResult.incorrectExamples. -/
structure IncorrectExample where
  winery : String
  predicted : String
  actual : String
deriving DecidableEq, Repr

/- step3_analyze_results.ts, interface WineAnalysisResult. -/
structure WineAnalysisResult where
  model : JSValue
  totalPredictions : Nat
  correctPredictions : Nat
  accuracy : Rat
  incorrectExamples : List IncorrectExample
deriving DecidableEq, Repr

/-
step3_analyze_results.ts, validateWinePredictionRecord.  The checks on
prediction, winery, variety and actual_variety always hold because the
mapping applies String(...) to those cells (they are Lean Strings by
construction), so only the recordId and model checks can fail.
-/
def validateWinePredictionRecord (record : WinePredictionRecord) : Bool :=
  (record.recordId.isNumber || record.recordId.isString) && record.model.isString

/-
step3_analyze_results.ts, the row mapping inside readPredictionsFile:
record[i] on a short row yields undefined, record[3] is converted via
toISOString when it is a Date and via String(...) otherwise.
-/
def mapRow (record : List JSValue) : WinePredictionRecord :=
  { recordId := record.getD 0 .undefined
    model := record.getD 1 .undefined
    prediction := jsToString (record.getD 2 .undefined)
    timestamp :=
      match record.getD 3 .undefined with
      | .date iso => iso
      | v => jsToString v
    winery := jsToString (record.getD 4 .undefined)
    variety := jsToString (record.getD 5 .undefined)
    actual_variety := jsToString (record.getD 6 .undefined) }

/-
The data-event handler of readPredictionsFile: each parsed row is mapped
and, when it validates, pushed onto validRecords, in stream order.
-/
def collectValidRecords : List (List JSValue) → List WinePredictionRecord
  | [] => []
  | row :: rest =>
    let mappedRecord := mapRow row
    if validateWinePredictionRecord mappedRecord then
      mappedRecord :: collectValidRecords rest
    else
      collectValidRecords rest

/-
step3_analyze_results.ts, readPredictionsFile.  File existence and the
CSV dialect are external; the function is modelled on the list of parsed
rows the stream delivers.  On end, zero valid records reject the
promise, otherwise the collected records resolve it.
-/
def readPredictionsFile (rows : List (List JSValue)) :
    Except String (List WinePredictionRecord) :=
  let validRecords := collectValidRecords rows
  if validRecords.length = 0 then
    Except.error "No valid records found"
  else
    Except.ok validRecords

/-
The for-loop body of calculateWineAccuracy: walks the predictions in
order, counting correct ones and appending an example for each
incorrect one.
-/
def wineAccuracyLoop :
    List WinePredictionRecord → Nat → List IncorrectExample →
      Nat × List IncorrectExample
  | [], correctPredictions, incorrectExamples =>
    (correctPredictions, incorrectExamples)
  | p :: rest, correctPredictions, incorrectExamples =>
    if p.prediction = p.actual_variety then
      wineAccuracyLoop rest (correctPredictions + 1) incorrectExamples
    else
      wineAccuracyLoop rest correctPredictions
        (incorrectExamples ++
          [{ winery := p.winery, predicted := p.prediction,
             actual := p.actual_variety }])

/-
step3_analyze_results.ts, calculateWineAccuracy.  Throws on an empty
input, otherwise returns the aggregate with accuracy computed as the
JS division correctPredictions / predictions.length (modelled in ℚ) and
the first five incorrect examples (incorrectExamples.slice(0, 5)).
-/
def calculateWineAccuracy (predictions : List WinePredictionRecord) :
    Except String WineAnalysisResult :=
  match predictions with
  | [] => Except.error "No predictions to analyze"
  | p0 :: _ =>
    let res := wineAccuracyLoop predictions 0 []
    Except.ok
      { model := p0.model
        totalPredictions := predictions.length
        correctPredictions := res.1
        accuracy := (res.1 : Rat) / (predictions.length : Rat)
        incorrectExamples := res.2.take 5 }

/-
Specification-side reformulations used to state the claims: the number
of correct predictions and the ordered list of mismatch examples.
-/
def correctCount (l : List WinePredictionRecord) : Nat :=
  (l.filter fun p => p.prediction = p.actual_variety).length

def mismatchExamples (l : List WinePredictionRecord) : List IncorrectExample :=
  (l.filter fun p => p.prediction ≠ p.actual_variety).map
    fun p => { winery := p.winery, predicted := p.prediction,
               actual := p.actual_variety }

/-
step2_get_output.ts, interface WineRecord.  points and price arrive via
dynamicTyping as numbers, modelled as rationals.
-/
structure WineRecord where
  winery : String
  province : String
  country : String
  region_1 : String
  description : String
  taster_name : String
  points : Rat
  price : Rat
  variety : String
deriving DecidableEq, Repr

/- step2_get_output.ts, interface PredictionResult. -/
structure PredictionResult where
  recordId : Nat
  model : String
  prediction : String
  timestamp : String
  winery : String
  variety : String
  actual_variety : String
deriving DecidableEq, Repr

/-
step2_get_output.ts, generatePrompt: a pure string template over the
record fields and the comma-joined variety list.
-/
def generatePrompt (record : WineRecord) (varieties : List String) : String :=
  let varietyList := String.intercalate ", " varieties
  "\nBased on this wine review, guess the grape variety:\n" ++
  "This wine is produced by " ++ record.winery ++ " in the " ++
  record.province ++ " region of " ++ record.country ++ ".\n" ++
  "It was grown in " ++ record.region_1 ++ ". It is described as: \"" ++
  record.description ++ "\".\n" ++
  "The wine has been reviewed by " ++ record.taster_name ++
  " and received " ++ toString record.points ++ " points.\n" ++
  "The price is " ++ toString record.price ++ ".\n\n" ++
  "Here is a list of possible grape varieties to choose from: " ++
  varietyList ++ ".\n\n" ++
  "What is the likely grape variety? Answer only with the grape variety name or blend from the list.\n"

/-
Outcome of one openai.beta.chat.completions.parse call, as observed by
getPrediction: either the awaited promise resolves with a message whose
parsed payload is present (parsed), or with a refusal indicator
(refusal), or with neither (invalid), or the await itself throws
(callError).
-/
inductive ApiOutcome where
  | parsed : String → ApiOutcome
  | refusal : ApiOutcome
  | invalid : ApiOutcome
  | callError : String → ApiOutcome
deriving DecidableEq, Repr

def ApiOutcome.isParsed : ApiOutcome → Bool
  | .parsed _ => true
  | _ => false

/-
The errors getPrediction can terminate with, tagged by the throw site:
refused        = throw new Error("Model refused to classify")
noValidResponse = throw new Error("No valid response received")
apiError       = an error thrown by the remote call itself
allRetriesFailed = the trailing throw new Error("All retries failed")
-/
inductive PredErr where
  | refused : PredErr
  | noValidResponse : PredErr
  | apiError : String → PredErr
  | allRetriesFailed : PredErr
deriving DecidableEq, Repr

/-
The try-block of one loop iteration of getPrediction: a parsed payload
returns its variety, a refusal throws, anything else throws the
no-valid-response error; an error from the call itself propagates.
-/
def tryAttempt : ApiOutcome → Except PredErr String
  | .parsed v => Except.ok v
  | .refusal => Except.error PredErr.refused
  | .invalid => Except.error PredErr.noValidResponse
  | .callError m => Except.error (PredErr.apiError m)

/- Decidable equality on Except values (used to evaluate run results). -/
deriving instance DecidableEq for Except

/-
Observable trace of one getPrediction invocation: the returned label or
propagated error, the list of backoff delays slept (milliseconds, in
order), and the number of attempts performed.
-/
structure GetPredictionRun where
  result : Except PredErr String
  delays : List Nat
  attempts : Nat
deriving DecidableEq, Repr

/-
The retry loop of getPrediction, for attempt numbers counted from
`attempt` with `remaining` iterations left (remaining = retries
- attempt + 1).  Mirrors:
  for (attempt = 1; attempt <= retries; attempt++) {
    try { ... } catch (error) {
      if (attempt === retries) throw error
      await setTimeout(Math.pow(2, attempt) * 1000) } }
  throw new Error("All retries failed")
The catch also receives the refusal and no-valid-response throws from
inside the try block.
-/
def getPredictionAux (oracle : Nat → ApiOutcome) : Nat → Nat → GetPredictionRun
  | _, 0 =>
    { result := Except.error PredErr.allRetriesFailed, delays := [], attempts := 0 }
  | attempt, remaining + 1 =>
    match tryAttempt (oracle attempt) with
    | Except.ok v => { result := Except.ok v, delays := [], attempts := 1 }
    | Except.error e =>
      if remaining = 0 then
        { result := Except.error e, delays := [], attempts := 1 }
      else
        let rest := getPredictionAux oracle (attempt + 1) remaining
        { result := rest.result
          delays := 2 ^ attempt * 1000 :: rest.delays
          attempts := rest.attempts + 1 }

/-
step2_get_output.ts, getPrediction.  The remote call is abstracted by
`api`, a deterministic oracle taking the model, the prompt, the store
flag (shouldStore = isBaseModel && storeCompletions; it only shapes the
outbound request metadata) and the attempt number.  The run timestamp
likewise only decorates request metadata.
-/
def getPrediction (model : String) (prompt : String)
    (api : String → String → Bool → Nat → ApiOutcome)
    (storeCompletions : Bool := true) (retries : Nat := 3) : GetPredictionRun :=
  let isBaseModel := model = "gpt-4o"
  let shouldStore := isBaseModel && storeCompletions
  getPredictionAux (api model prompt shouldStore) 1 retries

/-
step2_get_output.ts, processBatch.  The unique-varieties file read is
abstracted by the `varieties` parameter and new Date().toISOString() by
`nowIso`.  Each record is mapped (with its index) to its prediction
result, a per-record throw becoming null, and the nulls are filtered
out; Promise.all keeps the original index order regardless of
completion order.
-/
def processBatch (api : String → String → Bool → Nat → ApiOutcome)
    (varieties : List String) (nowIso : String)
    (records : List WineRecord) (startIdx : Nat) (model : String)
    (timestamp : String) (storeCompletions : Bool) : List PredictionResult :=
  let results := records.mapIdx fun index record =>
    match (getPrediction model (generatePrompt record varieties) api
        storeCompletions).result with
    | Except.ok prediction =>
      some { recordId := startIdx + index
             model := model
             prediction := prediction
             timestamp := nowIso
             winery := record.winery
             variety := record.variety
             actual_variety := record.variety }
    | Except.error _ => none
  results.filterMap id

/- step2_get_output.ts, rate-limiting constants. -/
def REQUESTS_PER_MINUTE : Nat := 200

def BATCH_SIZE : Nat := REQUESTS_PER_MINUTE / 4

/-
step2_get_output.ts, sampleRecords inside main.
-/
def sampleRecords (records : List WineRecord) (numSamples : Int) :
    List WineRecord :=
  if numSamples = -1 then records else records.take numSamples.toNat

/-
The batch loop of main:
  for (let i = 0; i < sampledRecords.length; i += BATCH_SIZE) {
    const batchRecords = sampledRecords.slice(i, i + BATCH_SIZE); ... }
slice(i, i + BATCH_SIZE) is take BATCH_SIZE of drop i.
-/
def mainBatchLoop (sampledRecords : List WineRecord) (i : Nat) :
    List (List WineRecord) :=
  if i < sampledRecords.length then
    ((sampledRecords.drop i).take BATCH_SIZE) ::
      mainBatchLoop sampledRecords (i + BATCH_SIZE)
  else
    []
termination_by sampledRecords.length - i
decreasing_by
  have hB : BATCH_SIZE = 50 := rfl
  omega

/- The list of batches main processes, starting at index 0. -/
def mainBatches (sampledRecords : List WineRecord) : List (List WineRecord) :=
  mainBatchLoop sampledRecords 0

/-
JS truthiness defaulting for strings: v || dflt where v is either a
string (process.argv entry) or undefined.  The empty string and
undefined are falsy.
-/
def jsOrString (v : Option String) (dflt : String) : String :=
  match v with
  | some s => if s = "" then dflt else s
  | none => dflt

/-
JS parseInt on a definitely-string argument: optional sign followed by
leading decimal digits; anything after the digits is ignored; no digits
means NaN (modelled as none).
-/
def jsParseInt (s : String) : Option Int :=
  let signAndRest : Int × List Char :=
    match s.data with
    | '-' :: cs => (-1, cs)
    | '+' :: cs => (1, cs)
    | cs => (1, cs)
  let digits := signAndRest.2.takeWhile Char.isDigit
  if digits.isEmpty then
    none
  else
    some (signAndRest.1 *
      (digits.foldl (fun acc c => acc * 10 + (c.toNat - Char.toNat '0')) 0 : Nat))

/-
parseInt(x) || dflt: NaN (none) and 0 are falsy and fall back to the
default.
-/
def jsOrInt (v : Option Int) (dflt : Int) : Int :=
  match v with
  | some n => if n = 0 then dflt else n
  | none => dflt

/-
JS String.prototype.split with a single-character separator, as in
datasetsArg.split of a comma: splits on every occurrence of the separator;
an input without the separator yields a one-element list.
-/
def jsSplitAux (sep : Char) : List Char → List Char → List String
  | [], acc => [String.mk acc.reverse]
  | c :: cs, acc =>
    if c = sep then
      String.mk acc.reverse :: jsSplitAux sep cs []
    else
      jsSplitAux sep cs (c :: acc)

def jsSplit (s : String) (sep : Char) : List String :=
  jsSplitAux sep s.data []

/- The configuration run_evaluation.ts hands to runEvaluation. -/
structure EvaluationCliConfig where
  comparisonModel : String
  datasets : List String
  numSamples : Int
deriving DecidableEq, Repr

/-
What the CLI entry block ends up doing: either console.error plus
process.exit(1), or a call to runEvaluation with the built config.
-/
inductive CliAction where
  | exitOne : String → CliAction
  | runEval : EvaluationCliConfig → CliAction
deriving DecidableEq, Repr

/-
run_evaluation.ts, the CLI handler block:
  const model = process.argv[2] || "gpt-4o-mini"
  const datasetsArg = process.argv[3] || "train,validation"
  const numSamples = parseInt(process.argv[4]) || 3
  if (!model) { console.error(...); process.exit(1) }
  const datasets = datasetsArg.split of a comma
  runEvaluation({ comparisonModel: model, datasets, numSamples })
argv2..argv4 are process.argv[2..4], none meaning the argument is
absent (undefined).
-/
def runEvaluationCli (argv2 argv3 argv4 : Option String) : CliAction :=
  let model := jsOrString argv2 "gpt-4o-mini"
  let datasetsArg := jsOrString argv3 "train,validation"
  let numSamples := jsOrInt (argv4.bind jsParseInt) 3
  if model = "" then
    CliAction.exitOne "Please provide a comparison model name"
  else
    CliAction.runEval
      { comparisonModel := model
        datasets := jsSplit datasetsArg ','
        numSamples := numSamples }

/-
Helper lemmas about the analyzer.
-/

theorem wineAccuracyLoop_eq (l : List WinePredictionRecord) :
    ∀ (c : Nat) (inc : List IncorrectExample),
      wineAccuracyLoop l c inc = (c + correctCount l, inc ++ mismatchExamples l) := by
  induction l with
  | nil =>
    intro c inc
    simp [wineAccuracyLoop, correctCount, mismatchExamples]
  | cons p rest ih =>
    intro c inc
    by_cases h : p.prediction = p.actual_variety
    · simp only [wineAccuracyLoop, if_pos h, ih]
      simp [correctCount, mismatchExamples, List.filter_cons, h]
      omega
    · simp only [wineAccuracyLoop, if_neg h, ih]
      simp [correctCount, mismatchExamples, List.filter_cons, h]

theorem calculateWineAccuracy_cons (p0 : WinePredictionRecord)
    (rest : List WinePredictionRecord) :
    calculateWineAccuracy (p0 :: rest) = Except.ok
      { model := p0.model
        totalPredictions := (p0 :: rest).length
        correctPredictions := correctCount (p0 :: rest)
        accuracy := (correctCount (p0 :: rest) : Rat) / ((p0 :: rest).length : Rat)
        incorrectExamples := (mismatchExamples (p0 :: rest)).take 5 } := by
  simp [calculateWineAccuracy, wineAccuracyLoop_eq]

theorem correctCount_le_length (l : List WinePredictionRecord) :
    correctCount l ≤ l.length :=
  List.length_filter_le _ _

/-- Claim C4: calling calculateWineAccuracy on an empty prediction set fails
with the No-predictions error rather than returning any numeric result. -/
theorem calculateWineAccuracy_empty_fails :
    calculateWineAccuracy [] = Except.error "No predictions to analyze" := rfl

/-- Claim C5: on every non-empty prediction list, calculateWineAccuracy
returns accuracy = correctPredictions / totalPredictions, which lies in
[0, 1]; it equals 1 when every prediction matches its ground truth and 0
when none does. -/
theorem calculateWineAccuracy_accuracy_bounds
    (predictions : List WinePredictionRecord) (h : predictions ≠ []) :
    ∃ r, calculateWineAccuracy predictions = Except.ok r ∧
      r.accuracy = (r.correctPredictions : Rat) / (r.totalPredictions : Rat) ∧
      0 ≤ r.accuracy ∧ r.accuracy ≤ 1 ∧
      ((∀ p ∈ predictions, p.prediction = p.actual_variety) → r.accuracy = 1) ∧
      ((∀ p ∈ predictions, p.prediction ≠ p.actual_variety) → r.accuracy = 0) := by
  obtain ⟨p0, rest, rfl⟩ := List.exists_cons_of_ne_nil h
  refine ⟨_, calculateWineAccuracy_cons p0 rest, rfl, ?_, ?_, ?_, ?_⟩
  · exact div_nonneg (Nat.cast_nonneg _) (Nat.cast_nonneg _)
  · refine div_le_one_of_le₀ ?_ (Nat.cast_nonneg _)
    exact_mod_cast correctCount_le_length (p0 :: rest)
  · intro hall
    have hc : correctCount (p0 :: rest) = (p0 :: rest).length := by
      unfold correctCount
      rw [List.filter_eq_self.mpr]
      intro a ha
      simpa using hall a ha
    simp only [hc]
    rw [div_self]
    exact Nat.cast_ne_zero.mpr (by simp)
  · intro hnone
    have hc : correctCount (p0 :: rest) = 0 := by
      unfold correctCount
      rw [List.filter_eq_nil_iff.mpr]
      · rfl
      · intro a ha
        simpa using hnone a ha
    simp [hc]

/-- Claim C9: on every non-empty prediction list, the incorrectExamples
field returned by calculateWineAccuracy is exactly the first
min(5, number of mismatches) mismatched predictions, in input order. -/
theorem calculateWineAccuracy_incorrect_examples
    (predictions : List WinePredictionRecord) (h : predictions ≠ []) :
    ∃ r, calculateWineAccuracy predictions = Except.ok r ∧
      r.incorrectExamples = (mismatchExamples predictions).take 5 ∧
      r.incorrectExamples.length = min 5 (mismatchExamples predictions).length := by
  obtain ⟨p0, rest, rfl⟩ := List.exists_cons_of_ne_nil h
  exact ⟨_, calculateWineAccuracy_cons p0 rest, rfl, List.length_take _ _⟩

/- Concrete sample records used by the witnesses. -/
def correctSample : WinePredictionRecord :=
  { recordId := JSValue.num 0, model := JSValue.str "gpt-4o",
    prediction := "Merlot", timestamp := "2024-01-01T00:00:00Z",
    winery := "A", variety := "Merlot", actual_variety := "Merlot" }

def wrongSample : WinePredictionRecord :=
  { recordId := JSValue.num 1, model := JSValue.str "gpt-4o",
    prediction := "Syrah", timestamp := "2024-01-01T00:00:00Z",
    winery := "B", variety := "Merlot", actual_variety := "Merlot" }

/-- Witness for C5, instantiated at a concrete two-element prediction list. -/
theorem calculateWineAccuracy_accuracy_bounds_witness :
    ∃ r, calculateWineAccuracy [correctSample, wrongSample] = Except.ok r ∧
      r.accuracy = (r.correctPredictions : Rat) / (r.totalPredictions : Rat) ∧
      0 ≤ r.accuracy ∧ r.accuracy ≤ 1 ∧
      ((∀ p ∈ [correctSample, wrongSample],
          p.prediction = p.actual_variety) → r.accuracy = 1) ∧
      ((∀ p ∈ [correctSample, wrongSample],
          p.prediction ≠ p.actual_variety) → r.accuracy = 0) :=
  calculateWineAccuracy_accuracy_bounds [correctSample, wrongSample]
    (List.cons_ne_nil _ _)

/-- Witness for C9, instantiated at a concrete list with six mismatches,
so that only the first five are kept. -/
theorem calculateWineAccuracy_incorrect_examples_witness :
    ∃ r, calculateWineAccuracy
        [wrongSample, correctSample, wrongSample, wrongSample, wrongSample,
         wrongSample, wrongSample] = Except.ok r ∧
      r.incorrectExamples = (mismatchExamples
        [wrongSample, correctSample, wrongSample, wrongSample, wrongSample,
         wrongSample, wrongSample]).take 5 ∧
      r.incorrectExamples.length = min 5 (mismatchExamples
        [wrongSample, correctSample, wrongSample, wrongSample, wrongSample,
         wrongSample, wrongSample]).length :=
  calculateWineAccuracy_incorrect_examples _ (List.cons_ne_nil _ _)

/-
Helper lemma for the reader: the stream accumulation equals
filter-then-map over the parsed rows.
-/
theorem collectValidRecords_eq (rows : List (List JSValue)) :
    collectValidRecords rows =
      (rows.filter fun row => validateWinePredictionRecord (mapRow row)).map
        mapRow := by
  induction rows with
  | nil => rfl
  | cons row rest ih =>
    simp only [collectValidRecords, List.filter_cons]
    by_cases h : validateWinePredictionRecord (mapRow row) = true
    · simp [h, ih]
    · simp [h, ih]

/-- Claim C3 counterexample: a file whose single row is malformed has
K = 0 well-formed rows, and readPredictionsFile rejects with an error
instead of returning the empty record list the claim requires. -/
theorem readPredictionsFile_zero_valid_counterexample :
    (([[JSValue.bool true]] : List (List JSValue)).filter fun row =>
        validateWinePredictionRecord (mapRow row)) = [] ∧
    readPredictionsFile [[JSValue.bool true]] =
      Except.error "No valid records found" ∧
    readPredictionsFile [[JSValue.bool true]] ≠ Except.ok [] := by
  decide

/-- Claim C3 (amended): for an input with K well-formed rows and M
malformed rows, readPredictionsFile returns exactly the K well-formed
records, mapped, in input order, whenever K ≥ 1; when K = 0 it fails
with the No-valid-records error instead of returning an empty list. -/
theorem readPredictionsFile_returns_valid (rows : List (List JSValue)) :
    readPredictionsFile rows =
      if (rows.filter fun row => validateWinePredictionRecord (mapRow row)) = []
      then Except.error "No valid records found"
      else Except.ok ((rows.filter fun row =>
        validateWinePredictionRecord (mapRow row)).map mapRow) := by
  simp only [readPredictionsFile, collectValidRecords_eq, List.length_map,
    List.length_eq_zero]

/-
Helper lemmas about the retry loop.
-/

/-
The error a failed attempt throws (only consulted when the attempt did
not produce a parsed payload; the parsed case is a placeholder).
-/
def outcomeError : ApiOutcome → PredErr
  | .parsed _ => PredErr.allRetriesFailed
  | .refusal => PredErr.refused
  | .invalid => PredErr.noValidResponse
  | .callError m => PredErr.apiError m

theorem tryAttempt_ne_allRetriesFailed (o : ApiOutcome) :
    tryAttempt o ≠ Except.error PredErr.allRetriesFailed := by
  cases o <;> simp [tryAttempt]

theorem tryAttempt_of_not_parsed (o : ApiOutcome) (h : o.isParsed = false) :
    tryAttempt o = Except.error (outcomeError o) := by
  cases o <;> simp_all [tryAttempt, outcomeError, ApiOutcome.isParsed]

/- One unfolding step of the retry loop. -/
theorem getPredictionAux_succ (oracle : Nat → ApiOutcome) (attempt n : Nat) :
    getPredictionAux oracle attempt (n + 1) =
      match tryAttempt (oracle attempt) with
      | Except.ok v => { result := Except.ok v, delays := [], attempts := 1 }
      | Except.error e =>
        if n = 0 then
          { result := Except.error e, delays := [], attempts := 1 }
        else
          { result := (getPredictionAux oracle (attempt + 1) n).result
            delays := 2 ^ attempt * 1000 ::
              (getPredictionAux oracle (attempt + 1) n).delays
            attempts := (getPredictionAux oracle (attempt + 1) n).attempts + 1 } :=
  rfl

/-
When every attempt in the window fails, the loop performs all remaining
attempts, sleeping 2^attempt * 1000 ms after each non-final one, and
propagates the error of the final attempt.
-/
theorem getPredictionAux_all_fail (oracle : Nat → ApiOutcome) :
    ∀ (remaining attempt : Nat), 1 ≤ remaining →
      (∀ a, attempt ≤ a → a < attempt + remaining → (oracle a).isParsed = false) →
      getPredictionAux oracle attempt remaining =
        { result := Except.error (outcomeError (oracle (attempt + remaining - 1)))
          delays := (List.range' attempt (remaining - 1)).map fun a => 2 ^ a * 1000
          attempts := remaining } := by
  intro remaining
  induction remaining with
  | zero =>
    intro attempt h
    omega
  | succ n ih =>
    intro attempt _ hfail
    have h0 : (oracle attempt).isParsed = false := hfail attempt le_rfl (by omega)
    rw [getPredictionAux_succ, tryAttempt_of_not_parsed _ h0]
    dsimp only
    by_cases hn : n = 0
    · subst hn
      simp [List.range']
    · obtain ⟨m, rfl⟩ := Nat.exists_eq_succ_of_ne_zero hn
      have hrec := ih (attempt + 1) (by omega)
        (fun a ha1 ha2 => hfail a (by omega) (by omega))
      rw [if_neg hn, hrec]
      have hidx : attempt + 1 + (m + 1) - 1 = attempt + (m + 1 + 1) - 1 := by
        omega
      simp only [GetPredictionRun.mk.injEq, hidx]
      refine ⟨trivial, ?_, trivial⟩
      rw [show (m + 1 + 1) - 1 = ((m + 1) - 1) + 1 from rfl, List.range'_succ,
        List.map_cons]

/-
Remote-call stubs used by the counterexamples and witnesses: an API that
refuses every attempt, and one that never returns a well-formed
structured payload.
-/
def alwaysRefuseApi : String → String → Bool → Nat → ApiOutcome :=
  fun _ _ _ _ => ApiOutcome.refusal

def alwaysInvalidApi : String → String → Bool → Nat → ApiOutcome :=
  fun _ _ _ _ => ApiOutcome.invalid

/-- Claim C1 counterexample: with the default retry budget of 3 and a
remote call that returns an explicit refusal on every attempt,
getPrediction performs 3 attempts and two backoff sleeps — not the
single, immediately-terminal attempt the claim requires — before
surfacing the refusal error. -/
theorem getPrediction_refusal_counterexample :
    (getPrediction "gpt-4o-mini" "p" alwaysRefuseApi).attempts = 3 ∧
    ¬ (getPrediction "gpt-4o-mini" "p" alwaysRefuseApi).attempts = 1 ∧
    (getPrediction "gpt-4o-mini" "p" alwaysRefuseApi).delays = [2000, 4000] ∧
    (getPrediction "gpt-4o-mini" "p" alwaysRefuseApi).result =
      Except.error PredErr.refused := by
  decide

/-- Claim C1 (amended): a refusal does not short-circuit the retries:
the refusal throw is caught by the retry handler like any other
per-attempt failure, so with an always-refusing remote call
getPrediction performs all `retries` attempts, sleeping 2^attempt
seconds after each non-final one, and only then surfaces the refusal
error to the caller; a refusal is terminal after a single attempt only
when the budget is 1. -/
theorem getPrediction_refusal_is_retried (model prompt : String)
    (storeCompletions : Bool) (retries : Nat) (hr : 1 ≤ retries) :
    getPrediction model prompt alwaysRefuseApi storeCompletions retries =
      { result := Except.error PredErr.refused
        delays := (List.range' 1 (retries - 1)).map fun a => 2 ^ a * 1000
        attempts := retries } := by
  show getPredictionAux
      (alwaysRefuseApi model prompt (decide (model = "gpt-4o") && storeCompletions))
      1 retries = _
  rw [getPredictionAux_all_fail
    (alwaysRefuseApi model prompt (decide (model = "gpt-4o") && storeCompletions))
    retries 1 hr (fun a _ _ => rfl)]
  rfl

/-- Witness for the amended C1 at budget 2: both attempts run, one sleep
of 2^1 seconds occurs, and the refusal error is surfaced. -/
theorem getPrediction_refusal_is_retried_witness :
    getPrediction "gpt-4o" "p" alwaysRefuseApi true 2 =
      { result := Except.error PredErr.refused
        delays := (List.range' 1 (2 - 1)).map fun a => 2 ^ a * 1000
        attempts := 2 } :=
  getPrediction_refusal_is_retried "gpt-4o" "p" true 2 (by decide)

/-- Claim C2: for every retry budget retries ≥ 1, if every attempt fails
(no attempt yields a parsed payload), getPrediction raises the error of
the final attempt after performing exactly `retries` attempts — it never
returns a label — and sleeps 2^attempt seconds (2^attempt * 1000 ms)
after each failed non-final attempt, i.e. exponential backoff. -/
theorem getPrediction_exhausted_retries (model prompt : String)
    (api : String → String → Bool → Nat → ApiOutcome) (storeCompletions : Bool)
    (retries : Nat) (hr : 1 ≤ retries)
    (hfail : ∀ (st : Bool) (a : Nat), 1 ≤ a → a ≤ retries →
      (api model prompt st a).isParsed = false) :
    ∃ e, getPrediction model prompt api storeCompletions retries =
      { result := Except.error e
        delays := (List.range' 1 (retries - 1)).map fun a => 2 ^ a * 1000
        attempts := retries } := by
  have h := getPredictionAux_all_fail
    (api model prompt (decide (model = "gpt-4o") && storeCompletions))
    retries 1 hr (fun a ha1 ha2 => hfail _ a ha1 (by omega))
  exact ⟨_, h⟩

/-- Witness for C2 at budget 3 with a remote call that never produces a
well-formed structured payload: three attempts, two sleeps, an error. -/
theorem getPrediction_exhausted_retries_witness :
    ∃ e, getPrediction "gpt-4o" "prompt" alwaysInvalidApi true 3 =
      { result := Except.error e
        delays := (List.range' 1 (3 - 1)).map fun a => 2 ^ a * 1000
        attempts := 3 } :=
  getPrediction_exhausted_retries "gpt-4o" "prompt" alwaysInvalidApi true 3
    (by decide) (fun st a _ _ => rfl)

/-
The loop body never terminates a run with the trailing error (nor with
zero attempts) as long as at least one iteration runs.
-/
theorem getPredictionAux_ne_trailing (oracle : Nat → ApiOutcome) :
    ∀ (remaining attempt : Nat), 1 ≤ remaining →
      (getPredictionAux oracle attempt remaining).result ≠
        Except.error PredErr.allRetriesFailed ∧
      1 ≤ (getPredictionAux oracle attempt remaining).attempts := by
  intro remaining
  induction remaining with
  | zero =>
    intro attempt h
    omega
  | succ n ih =>
    intro attempt _
    cases ho : tryAttempt (oracle attempt) with
    | ok v => simp [getPredictionAux, ho]
    | error e =>
      have he : e ≠ PredErr.allRetriesFailed := by
        have := tryAttempt_ne_allRetriesFailed (oracle attempt)
        rw [ho] at this
        simpa using this
      by_cases hn : n = 0
      · subst hn
        simp [getPredictionAux, ho, he]
      · have hrec := ih (attempt + 1) (by omega)
        simp only [getPredictionAux, ho, if_neg hn]
        exact ⟨hrec.1, by have := hrec.2; omega⟩

/-- Claim C10: for every retry budget ≥ 1 the trailing throw of
getPrediction ("All retries failed") is unreachable: every run ends, in
at least one attempt, with a parsed label or an error propagated from
within the loop, never with the trailing error. -/
theorem getPrediction_trailing_throw_unreachable (model prompt : String)
    (api : String → String → Bool → Nat → ApiOutcome) (storeCompletions : Bool)
    (retries : Nat) (hr : 1 ≤ retries) :
    (getPrediction model prompt api storeCompletions retries).result ≠
      Except.error PredErr.allRetriesFailed ∧
    1 ≤ (getPrediction model prompt api storeCompletions retries).attempts :=
  getPredictionAux_ne_trailing _ retries 1 hr

/-- Witness for C10 at a concrete run: budget 1, an API response lacking
a structured payload. -/
theorem getPrediction_trailing_throw_unreachable_witness :
    (getPrediction "gpt-4o" "p" alwaysInvalidApi true 1).result ≠
      Except.error PredErr.allRetriesFailed ∧
    1 ≤ (getPrediction "gpt-4o" "p" alwaysInvalidApi true 1).attempts :=
  getPrediction_trailing_throw_unreachable "gpt-4o" "p" alwaysInvalidApi true 1
    (by decide)

/-
Helper lemmas about the batch loop of main.
-/

theorem mainBatchLoop_join (l : List WineRecord) :
    ∀ (n i : Nat), l.length - i ≤ n →
      (mainBatchLoop l i).flatten = l.drop i := by
  intro n
  induction n with
  | zero =>
    intro i h
    rw [mainBatchLoop, if_neg (by omega)]
    rw [List.drop_eq_nil_of_le (by omega)]
    rfl
  | succ n ih =>
    intro i h
    rw [mainBatchLoop]
    by_cases hi : i < l.length
    · rw [if_pos hi]
      have hB : (1 : Nat) ≤ BATCH_SIZE := by decide
      rw [List.flatten_cons, ih (i + BATCH_SIZE) (by omega),
        List.drop_take_append_drop]
    · rw [if_neg hi]
      rw [List.drop_eq_nil_of_le (by omega)]
      rfl

theorem mainBatchLoop_length (l : List WineRecord) :
    ∀ (n i : Nat), l.length - i ≤ n →
      (mainBatchLoop l i).length =
        ((l.length - i) + BATCH_SIZE - 1) / BATCH_SIZE := by
  intro n
  induction n with
  | zero =>
    intro i h
    rw [mainBatchLoop, if_neg (by omega)]
    have hB : BATCH_SIZE = 50 := rfl
    simp only [List.length_nil, hB]
    omega
  | succ n ih =>
    intro i h
    rw [mainBatchLoop]
    have hB : BATCH_SIZE = 50 := rfl
    by_cases hi : i < l.length
    · rw [if_pos hi]
      rw [List.length_cons, ih (i + BATCH_SIZE) (by omega)]
      simp only [hB]
      omega
    · rw [if_neg hi]
      simp only [List.length_nil, hB]
      omega

/-- Claim C6: the main loop partitions the sampled records into exactly
ceil(B / S) batches, where S = BATCH_SIZE = floor(200 / 4) = 50 and
B is the number of sampled records: the batch count equals
(B + S - 1) / S (the Nat form of ceil(B / S), as the last two bounds
pin down), and concatenating the batches gives back the original list,
so every record appears in exactly one batch, in order. -/
theorem main_batch_partition (sampledRecords : List WineRecord) :
    (mainBatches sampledRecords).flatten = sampledRecords ∧
    (mainBatches sampledRecords).length =
      (sampledRecords.length + BATCH_SIZE - 1) / BATCH_SIZE ∧
    sampledRecords.length ≤ BATCH_SIZE * (mainBatches sampledRecords).length ∧
    BATCH_SIZE * (mainBatches sampledRecords).length <
      sampledRecords.length + BATCH_SIZE := by
  have hj := mainBatchLoop_join sampledRecords sampledRecords.length 0 (by omega)
  have hl := mainBatchLoop_length sampledRecords sampledRecords.length 0
    (by omega)
  have hB : BATCH_SIZE = 50 := rfl
  rw [Nat.sub_zero] at hl
  refine ⟨by simpa [mainBatches] using hj, by simpa [mainBatches] using hl,
    ?_, ?_⟩
  · simp only [mainBatches, hl, hB]
    omega
  · simp only [mainBatches, hl, hB]
    omega

/-
Helper lemma: the length of a filterMap equals the length of the filter
by the corresponding success predicate.
-/
theorem length_filterMap_eq_length_filter {α β : Type} (f : α → Option β)
    (p : α → Bool) (hf : ∀ a, (f a).isSome = p a) :
    ∀ l : List α, (l.filterMap f).length = (l.filter p).length := by
  intro l
  induction l with
  | nil => rfl
  | cons a rest ih =>
    have h := hf a
    cases hfa : f a with
    | none =>
      rw [hfa] at h
      simp [List.filterMap_cons, List.filter_cons, hfa, ← h, ih]
    | some b =>
      rw [hfa] at h
      simp [List.filterMap_cons, List.filter_cons, hfa, ← h, ih]

/-- Claim C7: processBatch maps each record, with its index, to null on
a per-record failure and to its prediction result on success, then
returns exactly the successful results in the original record order;
failed records are excluded from the returned array (the output length
is the number of successes) and a failure never aborts the batch. -/
theorem processBatch_keeps_successes_in_order
    (api : String → String → Bool → Nat → ApiOutcome)
    (varieties : List String) (nowIso : String) (records : List WineRecord)
    (startIdx : Nat) (model timestamp : String) (storeCompletions : Bool) :
    processBatch api varieties nowIso records startIdx model timestamp
        storeCompletions =
      (records.enum.filterMap fun p =>
        match (getPrediction model (generatePrompt p.2 varieties) api
            storeCompletions).result with
        | Except.ok prediction =>
          some { recordId := startIdx + p.1
                 model := model
                 prediction := prediction
                 timestamp := nowIso
                 winery := p.2.winery
                 variety := p.2.variety
                 actual_variety := p.2.variety }
        | Except.error _ => none) ∧
    (processBatch api varieties nowIso records startIdx model timestamp
        storeCompletions).length =
      (records.enum.filter fun p =>
        ((getPrediction model (generatePrompt p.2 varieties) api
            storeCompletions).result).isOk).length := by
  have hmain : processBatch api varieties nowIso records startIdx model
      timestamp storeCompletions =
      (records.enum.filterMap fun p =>
        match (getPrediction model (generatePrompt p.2 varieties) api
            storeCompletions).result with
        | Except.ok prediction =>
          some { recordId := startIdx + p.1
                 model := model
                 prediction := prediction
                 timestamp := nowIso
                 winery := p.2.winery
                 variety := p.2.variety
                 actual_variety := p.2.variety }
        | Except.error _ => none) := by
    simp only [processBatch, List.mapIdx_eq_enum_map, List.filterMap_map]
    rfl
  refine ⟨hmain, ?_⟩
  rw [hmain]
  apply length_filterMap_eq_length_filter
  intro a
  cases h : (getPrediction model (generatePrompt a.2 varieties) api
      storeCompletions).result <;> simp [h, Except.isOk, Except.toBool]

/-
Helper lemma: the defaulted model string is never empty, because the
default gpt-4o-mini is substituted exactly when the argument is falsy.
-/
theorem jsOrString_model_ne_empty (argv2 : Option String) :
    jsOrString argv2 "gpt-4o-mini" ≠ "" := by
  cases argv2 with
  | none => simp [jsOrString]
  | some s =>
    by_cases hs : s = "" <;> simp [jsOrString, hs]

/-- Claim C8 counterexample: invoked with no command-line arguments at
all — in particular with the comparison-model argument missing — the CLI
handler does not report a missing-argument error and exit with code 1:
it substitutes the default model gpt-4o-mini and runs the evaluation. -/
theorem runEvaluationCli_missing_model_counterexample :
    runEvaluationCli none none none =
      CliAction.runEval
        { comparisonModel := "gpt-4o-mini"
          datasets := ["train", "validation"]
          numSamples := 3 } ∧
    runEvaluationCli none none none ≠
      CliAction.exitOne "Please provide a comparison model name" := by
  decide

/-- Claim C8 (amended): the missing-argument exit branch is unreachable:
for every argument vector the CLI handler calls runEvaluation, with the
comparison model process.argv[2] defaulted to the non-empty string
gpt-4o-mini when the argument is missing or empty — it never reports the
missing-model error or exits with code 1 on that path (exit code 1
remains for runtime pipeline errors via the promise catch handler). -/
theorem runEvaluationCli_never_exits_for_missing_model
    (argv2 argv3 argv4 : Option String) :
    runEvaluationCli argv2 argv3 argv4 =
      CliAction.runEval
        { comparisonModel := jsOrString argv2 "gpt-4o-mini"
          datasets := jsSplit (jsOrString argv3 "train,validation") ','
          numSamples := jsOrInt (argv4.bind jsParseInt) 3 } ∧
    jsOrString argv2 "gpt-4o-mini" ≠ "" := by
  refine ⟨?_, jsOrString_model_ne_empty argv2⟩
  simp only [runEvaluationCli, if_neg (jsOrString_model_ne_empty argv2)]
